import Mathlib

/-!
# Verification of the go-url-shortener creation/deduplication/resolution core

Shallow embedding of the repository's core (service `URLService`, repository
`PostgresRepository`, the Redis response/entity caches, and the error
classifiers) as pure Lean functions, together with theorems settling the
frozen claims about the natural-language specification.

Modelling conventions:
- time is `Nat`; `expires_at`, `deleted_at` are `Option Nat`; Go's
  `t.Before(now)` is `t < now`;
- the persistent store is a `List URLRow` of table rows; SQL `ORDER BY
  created_at DESC LIMIT 1` picks a row of maximal `createdAt` (first listed
  wins ties); the schema's uniqueness constraints (`urls_short_code_key` on
  `short_code`, `idx_urls_user_url_not_deleted` on `(user_id, original_url)
  WHERE deleted_at IS NULL`) are checked by the modelled insert, which fails
  with the corresponding PostgreSQL error message;
- the Redis caches are association lists; cache transport errors are
  non-fatal in the Go code (logged, then the store is consulted), so the pure
  model has the cache always reachable;
- the random short-code generator is an explicit stream `codes : Nat → String`
  with a consumption index threaded through the service;
- goroutines spawned for best-effort work (the async soft delete fired by an
  expired dedup hit, click recording) are not applied to the state: the
  caller-visible return values never depend on them.
-/

set_option autoImplicit false

namespace UrlShortener

/-- A row of the `urls` table (domain.URL plus the `deleted_at` column). -/
structure URLRow where
  id : Int
  shortCode : String
  originalURL : String
  userID : Int
  createdAt : Nat
  expiresAt : Option Nat
  clickCount : Int
  isActive : Bool
  metadata : Option (List (String × String))
  updatedAt : Nat
  deletedAt : Option Nat
  deriving DecidableEq

/-- domain.URLResponse: the response DTO built by the service. -/
structure URLResponse where
  shortCode : String
  shortURL : String
  originalURL : String
  createdAt : Nat
  expiresAt : Option Nat
  clickCount : Int
  deriving DecidableEq

/-- domain.CreateURLRequest. -/
structure CreateURLRequest where
  url : String
  userID : Int
  expiresIn : Option Int
  metadata : Option (List (String × String))
  deriving DecidableEq

/-- Go `url.ExpiresAt != nil && url.ExpiresAt.Before(time.Now())`. -/
def isExpiredAt (expiresAt : Option Nat) (now : Nat) : Bool :=
  match expiresAt with
  | some t => decide (t < now)
  | none => false

/-- The spec's liveness predicate (section 3): active, not soft-deleted, not
expired. -/
def isLive (r : URLRow) (now : Nat) : Bool :=
  r.isActive && r.deletedAt == none && !isExpiredAt r.expiresAt now

namespace PostgresRepository

/-- Row filter of the dedup query in `GetByOriginalURLAndUser`:
`original_url = $1 AND user_id = $2 AND deleted_at IS NULL`.
Note: the query does not filter on `is_active`. -/
def matchesDedup (originalURL : String) (userID : Int) (r : URLRow) : Bool :=
  r.originalURL == originalURL && r.userID == userID && r.deletedAt == none

/-- `ORDER BY created_at DESC LIMIT 1` over a result set: a row of maximal
`createdAt` (first listed wins ties). -/
def latestCreated (rows : List URLRow) : Option URLRow :=
  rows.foldl
    (fun acc r =>
      match acc with
      | none => some r
      | some a => if a.createdAt < r.createdAt then some r else some a)
    none

/-- `PostgresRepository.GetByOriginalURLAndUser`: dedup lookup. Returns the
most recent row matching `(original_url, user_id)` with `deleted_at IS NULL`;
an expired hit is reported as absent (the spawned async soft delete is not
applied to the state, see the module comment). -/
def getByOriginalURLAndUser (db : List URLRow) (originalURL : String)
    (userID : Int) (now : Nat) : Option URLRow :=
  match latestCreated (db.filter (matchesDedup originalURL userID)) with
  | none => none
  | some r => if isExpiredAt r.expiresAt now then none else some r

/-- `PostgresRepository.GetByShortCode`: `WHERE short_code = $1 AND
is_active = true`, then an application-side expiry check. The query does not
filter on `deleted_at`. -/
def getByShortCode (db : List URLRow) (code : String) (now : Nat) :
    Option URLRow :=
  match (db.filter (fun r => r.shortCode == code && r.isActive)).head? with
  | none => none
  | some r => if isExpiredAt r.expiresAt now then none else some r

/-- `true` iff inserting a row with this short code violates the schema's
`urls_short_code_key` unique constraint (which ranges over all rows). -/
def createViolatesShortCode (db : List URLRow) (code : String) : Bool :=
  db.any (fun r => r.shortCode == code)

/-- `true` iff inserting `(userID, originalURL)` violates the partial unique
index `idx_urls_user_url_not_deleted` (over rows with `deleted_at IS NULL`). -/
def createViolatesUserURL (db : List URLRow) (originalURL : String)
    (userID : Int) : Bool :=
  db.any (fun r =>
    r.userID == userID && r.originalURL == originalURL && r.deletedAt == none)

/-- Error produced by `PostgresRepository.Create` when the insert hits the
short-code unique constraint (lib/pq message wrapped by the repository). -/
def dupShortCodeMsg : String :=
  "failed to insert URL: pq: duplicate key value violates unique constraint \"urls_short_code_key\""

/-- Error produced by `PostgresRepository.Create` when the insert hits the
partial unique index on `(user_id, original_url)`. -/
def dupUserURLMsg : String :=
  "failed to insert URL: pq: duplicate key value violates unique constraint \"idx_urls_user_url_not_deleted\""

/-- `PostgresRepository.Create`: INSERT writing `short_code, original_url,
user_id, expires_at, is_active, metadata`; `id`/`created_at`/`updated_at`/
`click_count`/`deleted_at` come from the schema defaults and RETURNING.
Fails with the lib/pq constraint message on a uniqueness violation. -/
def create (db : List URLRow) (url : URLRow) (now : Nat) (nextId : Int) :
    Except String (List URLRow × URLRow) :=
  if createViolatesShortCode db url.shortCode then
    Except.error dupShortCodeMsg
  else if createViolatesUserURL db url.originalURL url.userID then
    Except.error dupUserURLMsg
  else
    let r := { url with
      id := nextId, createdAt := now, clickCount := 0
      updatedAt := now, deletedAt := none }
    Except.ok (db ++ [r], r)

/-- `PostgresRepository.SoftDelete`: `SET deleted_at = NOW(), updated_at =
NOW() WHERE short_code = $1 AND deleted_at IS NULL`. -/
def softDelete (db : List URLRow) (code : String) (now : Nat) : List URLRow :=
  db.map (fun r =>
    if r.shortCode == code && r.deletedAt == none then
      { r with deletedAt := some now, updatedAt := now }
    else r)

/-- `PostgresRepository.Delete`: `UPDATE urls SET is_active = false WHERE
short_code = $1` — no liveness filter, so any row with that code counts as
affected; `rowsAffected == 0` (no row with that code at all) is reported as
"URL not found". -/
def delete (db : List URLRow) (code : String) : Except String (List URLRow) :=
  if db.any (fun r => r.shortCode == code) then
    Except.ok (db.map (fun r =>
      if r.shortCode == code then { r with isActive := false } else r))
  else
    Except.error "URL not found"

/-- `PostgresRepository.IncrementClickCount`: `SET click_count = click_count
+ 1 WHERE short_code = $1 AND is_active = true`; zero affected rows is an
error. -/
def incrementClickCount (db : List URLRow) (code : String) :
    Except String (List URLRow) :=
  if db.any (fun r => r.shortCode == code && r.isActive) then
    Except.ok (db.map (fun r =>
      if r.shortCode == code && r.isActive then
        { r with clickCount := r.clickCount + 1 }
      else r))
  else
    Except.error ("URL with short code " ++ code ++ " not found or not active")

/-- `PostgresRepository.Update`: writes `user_id`, `expires_at`, `metadata`,
`updated_at` on the active row with the given short code. It never writes
`click_count`. -/
def update (db : List URLRow) (url : URLRow) (now : Nat) :
    Except String (List URLRow) :=
  if db.any (fun r => r.shortCode == url.shortCode && r.isActive) then
    Except.ok (db.map (fun r =>
      if r.shortCode == url.shortCode && r.isActive then
        { r with userID := url.userID, expiresAt := url.expiresAt
                 metadata := url.metadata, updatedAt := now }
      else r))
  else
    Except.error ("URL with short code " ++ url.shortCode ++ " not found or not active")

end PostgresRepository

/-! ## Error classification (service helpers)

`isDuplicateShortCodeError` / `isDuplicateUserURLError` classify a store
error by substring search over the lowercased message, exactly as the Go
helpers do with `strings.ToLower` and `strings.Contains`. -/

/-- `strings.ToLower`, character by character (on the character list, which
the kernel can evaluate). -/
def goToLower (s : String) : List Char :=
  s.toList.map Char.toLower

/-- `pat` is a prefix of `l` (character lists). -/
def charPrefix : List Char → List Char → Bool
  | [], _ => true
  | _ :: _, [] => false
  | a :: as, b :: bs => a == b && charPrefix as bs

/-- `pat` occurs as a contiguous sublist of `l`. -/
def charContains (pat : List Char) : List Char → Bool
  | [] => charPrefix pat []
  | c :: rest => charPrefix pat (c :: rest) || charContains pat rest

/-- `strings.Contains s pat` on lowered character lists. -/
def strContains (s : List Char) (pat : String) : Bool :=
  charContains pat.toList s

/-- service.isDuplicateShortCodeError: the lowercased message contains both
"duplicate key value violates unique constraint" and "urls_short_code_key". -/
def isDuplicateShortCodeError (msg : String) : Bool :=
  let m := goToLower msg
  strContains m "duplicate key value violates unique constraint" &&
    strContains m "urls_short_code_key"

/-- service.isDuplicateUserURLError: present in the source but never called
by any service code path. -/
def isDuplicateUserURLError (msg : String) : Bool :=
  let m := goToLower msg
  strContains m "duplicate key value violates unique constraint" &&
    (strContains m "urls_user_url_key" || strContains m "idx_urls_user_url")

/-! ## Cache model

Association lists standing for the two Redis keyspaces. The Go cache key
prefixes ("url:", "response:") keep the keyspaces disjoint; here they are
separate fields of `World`, so the keys are stored unprefixed. -/

/-- Overwrite-or-insert for an association list (Redis SET). -/
def cacheSet {α : Type} (c : List (String × α)) (k : String) (v : α) :
    List (String × α) :=
  (k, v) :: c.filter (fun p => !(p.1 == k))

/-- Redis GET. -/
def cacheGet {α : Type} (c : List (String × α)) (k : String) : Option α :=
  (c.find? (fun p => p.1 == k)).map (fun p => p.2)

/-- Redis DEL. -/
def cacheDel {α : Type} (c : List (String × α)) (k : String) :
    List (String × α) :=
  c.filter (fun p => !(p.1 == k))

/-- cache.GenerateResponseCacheKey builds the string `url ++ ":" ++ userID`
and returns its md5 hex digest. The digest is a pure function of this data
string, so key determinism and key equality are unaffected by omitting it;
the model uses the preimage string as the key. -/
def generateResponseCacheKey (originalURL : String) (userID : Int) : String :=
  originalURL ++ ":" ++ toString userID

/-! ## Service state and pipeline -/

/-- The state visible to the orchestrator: store, the two cache keyspaces,
the clock, and the id the store will assign next. -/
structure World where
  db : List URLRow
  entCache : List (String × URLRow)
  respCache : List (String × URLResponse)
  now : Nat
  nextId : Int
  deriving DecidableEq

/-- The validator interface consumed by the service: `Validate` returns an
optional error; `IsSafe` returns a verdict and an optional error. -/
structure URLValidator where
  validate : String → Option String
  isSafe : String → Bool × Option String

/-- Pipeline steps recorded by the model, used to state which stages of
`CreateURL` ran. -/
inductive Step
  | respCacheProbe
  | validateURL
  | safetyCheck
  | dedupLookup
  | persist
  | respCacheWrite
  deriving DecidableEq

namespace URLService

open PostgresRepository

/-- service.buildURLResponse. -/
def buildURLResponse (baseURL : String) (u : URLRow) : URLResponse :=
  { shortCode := u.shortCode
    shortURL := baseURL ++ "/" ++ u.shortCode
    originalURL := u.originalURL
    createdAt := u.createdAt
    expiresAt := u.expiresAt
    clickCount := u.clickCount }

/-- service.generateUniqueShortCode: up to 10 draws from the generator
stream, each probed with `GetByShortCode`; returns the accepted code and the
next stream index. -/
def generateUniqueShortCode (db : List URLRow) (now : Nat)
    (codes : Nat → String) : Nat → Nat → Except String String × Nat
  | g, 0 => (Except.error "failed to generate unique short code after 10 attempts", g)
  | g, fuel + 1 =>
    let code := codes g
    match getByShortCode db code now with
    | none => (Except.ok code, g + 1)
    | some _ => generateUniqueShortCode db now codes (g + 1) fuel

/-- The URL entity built inside attemptCreateURL: expiry is set only for a
strictly positive `ExpiresIn`; `id`/`createdAt`/`updatedAt` are filled in by
the store. -/
def mkEntity (req : CreateURLRequest) (code : String) (now : Nat) : URLRow :=
  { id := 0
    shortCode := code
    originalURL := req.url
    userID := req.userID
    createdAt := 0
    expiresAt :=
      match req.expiresIn with
      | some d => if 0 < d then some (now + d.toNat) else none
      | none => none
    clickCount := 0
    isActive := true
    metadata := req.metadata
    updatedAt := 0
    deletedAt := none }

/-- service.attemptCreateURL: generate a probed-unique code, build the
entity, persist it, then best-effort cache the entity and publish the
creation event. Returns the outcome, the generator index, and the persist
steps taken. -/
def attemptCreateURL (baseURL : String) (codes : Nat → String) (w : World)
    (g : Nat) (req : CreateURLRequest) :
    Except String (URLResponse × World) × Nat × List Step :=
  match generateUniqueShortCode w.db w.now codes g 10 with
  | (Except.error e, g2) =>
    (Except.error ("failed to generate short code: " ++ e), g2, [])
  | (Except.ok code, g2) =>
    let url := mkEntity req code w.now
    match PostgresRepository.create w.db url w.now w.nextId with
    | Except.error e => (Except.error e, g2, [Step.persist])
    | Except.ok (db2, created) =>
      (Except.ok
        (buildURLResponse baseURL created,
          { w with db := db2, nextId := w.nextId + 1
                   entCache := cacheSet w.entCache created.shortCode created }),
        g2, [Step.persist])

/-- service.handleDuplicateErrorFallback over the modelled store: one more
dedup read; a hit is returned, a miss fails with the exhaustion message. -/
def handleDuplicateErrorFallback (baseURL : String) (w : World)
    (req : CreateURLRequest) : Except String (URLResponse × World) :=
  match getByOriginalURLAndUser w.db req.url req.userID w.now with
  | some existing => Except.ok (buildURLResponse baseURL existing, w)
  | none => Except.error "failed to create URL after 5 retry attempts"

/-- The error wrapper of createNewURLWithRetry's non-collision branch:
`fmt.Errorf("failed to create URL on attempt %d: %w", attempt, err)`. -/
def attemptFailMsg (attempt : Nat) (e : String) : String :=
  "failed to create URL on attempt " ++ toString attempt ++ ": " ++ e

/-- service.createNewURLWithRetry, loop body: attempts are numbered 1..5;
a failure classified as a short-code collision retries (or, on attempt 5,
falls back to the dedup read); any other failure aborts wrapped. A failed
attempt leaves the world unchanged, so only the generator index advances. -/
def createRetryLoop (baseURL : String) (codes : Nat → String)
    (req : CreateURLRequest) :
    Nat → World → Nat → Nat → Except String (URLResponse × World) × Nat × List Step
  | 0, _, g, _ => (Except.error "unexpected error: should not reach here", g, [])
  | fuel + 1, w, g, attempt =>
    match attemptCreateURL baseURL codes w g req with
    | (Except.ok res, g2, ps) => (Except.ok res, g2, ps)
    | (Except.error e, g2, ps) =>
      if isDuplicateShortCodeError e then
        if attempt == 5 then
          (handleDuplicateErrorFallback baseURL w req, g2, ps)
        else
          match createRetryLoop baseURL codes req fuel w g2 (attempt + 1) with
          | (res, g3, ps2) => (res, g3, ps ++ ps2)
      else
        (Except.error (attemptFailMsg attempt e), g2, ps)

/-- service.handleDuplicateErrorFallback with the dedup read abstracted as
its outcome `fb` (`Except.error` is a store-level lookup failure). -/
def handleDuplicateErrorFallbackF (baseURL : String)
    (fb : Except String (Option URLRow)) : Except String URLResponse :=
  match fb with
  | Except.error e =>
    Except.error
      ("failed to create URL after retries and failed to find existing URL: " ++ e)
  | Except.ok (some u) => Except.ok (buildURLResponse baseURL u)
  | Except.ok none => Except.error "failed to create URL after 5 retry attempts"

/-- Control-flow skeleton of service.createNewURLWithRetry with the
effectful attemptCreateURL outcomes abstracted as a sequence `att` indexed
by the attempt number (1..5) and the fallback dedup read abstracted as `fb`.
This covers attempt outcomes the sequential pure model cannot produce, such
as a concurrent writer committing a conflicting row between the dedup lookup
and the insert. -/
def createRetryLoopF (baseURL : String) (att : Nat → Except String URLResponse)
    (fb : Except String (Option URLRow)) :
    Nat → Nat → Except String URLResponse
  | 0, _ => Except.error "unexpected error: should not reach here"
  | fuel + 1, attempt =>
    match att attempt with
    | Except.ok r => Except.ok r
    | Except.error e =>
      if isDuplicateShortCodeError e then
        if attempt == 5 then handleDuplicateErrorFallbackF baseURL fb
        else createRetryLoopF baseURL att fb fuel (attempt + 1)
      else Except.error (attemptFailMsg attempt e)

/-- service.createNewURLWithRetry over abstracted attempt outcomes:
`maxRetries = 5`, attempts numbered from 1. -/
def createNewURLWithRetryF (baseURL : String)
    (att : Nat → Except String URLResponse)
    (fb : Except String (Option URLRow)) : Except String URLResponse :=
  createRetryLoopF baseURL att fb 5 1

/-- An attempt outcome the retry loop classifies as a short-code collision. -/
def isCollisionFailure : Except String URLResponse → Bool
  | Except.error e => isDuplicateShortCodeError e
  | Except.ok _ => false

/-- Equality of modelled call outcomes is decidable (used to evaluate the
model at concrete inputs). -/
instance instDecEqExcept {e a : Type} [DecidableEq e] [DecidableEq a] :
    DecidableEq (Except e a) := fun x y =>
  match x, y with
  | Except.ok u, Except.ok v =>
    if h : u = v then isTrue (by rw [h]) else isFalse (by intro hc; cases hc; exact h rfl)
  | Except.error u, Except.error v =>
    if h : u = v then isTrue (by rw [h]) else isFalse (by intro hc; cases hc; exact h rfl)
  | Except.ok _, Except.error _ => isFalse (by intro hc; cases hc)
  | Except.error _, Except.ok _ => isFalse (by intro hc; cases hc)

/-- Result of a `CreateURL` call: outcome, final state, final generator
index, and the pipeline steps that ran. -/
structure CreateResult where
  result : Except String URLResponse
  world : World
  genIdx : Nat
  steps : List Step
  deriving DecidableEq

/-- service.CreateURL: (1) response-cache probe, (2) validation, (3) safety
check (only the boolean verdict is consulted; an accompanying error is
logged), (4) dedup lookup, (5) return existing or create with retry,
(6) cache the response under the dedup key. -/
def createURL (baseURL : String) (v : URLValidator) (codes : Nat → String)
    (w : World) (g : Nat) (req : CreateURLRequest) : CreateResult :=
  let cacheKey := generateResponseCacheKey req.url req.userID
  match cacheGet w.respCache cacheKey with
  | some cached =>
    { result := Except.ok cached, world := w, genIdx := g
      steps := [Step.respCacheProbe] }
  | none =>
    match v.validate req.url with
    | some e =>
      { result := Except.error ("URL validation failed: " ++ e)
        world := w, genIdx := g
        steps := [Step.respCacheProbe, Step.validateURL] }
    | none =>
      if (v.isSafe req.url).1 then
        match getByOriginalURLAndUser w.db req.url req.userID w.now with
        | some existing =>
          let resp := buildURLResponse baseURL existing
          { result := Except.ok resp
            world := { w with respCache := cacheSet w.respCache cacheKey resp }
            genIdx := g
            steps := [Step.respCacheProbe, Step.validateURL, Step.safetyCheck,
                      Step.dedupLookup, Step.respCacheWrite] }
        | none =>
          match createRetryLoop baseURL codes req 5 w g 1 with
          | (Except.error e, g2, ps) =>
            { result := Except.error e, world := w, genIdx := g2
              steps := [Step.respCacheProbe, Step.validateURL, Step.safetyCheck,
                        Step.dedupLookup] ++ ps }
          | (Except.ok (resp, w1), g2, ps) =>
            { result := Except.ok resp
              world := { w1 with respCache := cacheSet w1.respCache cacheKey resp }
              genIdx := g2
              steps := [Step.respCacheProbe, Step.validateURL, Step.safetyCheck,
                        Step.dedupLookup] ++ ps ++ [Step.respCacheWrite] }
      else
        { result := Except.error "URL is not safe", world := w, genIdx := g
          steps := [Step.respCacheProbe, Step.validateURL, Step.safetyCheck] }

/-- The cache-or-store read at the head of service.GetURL: entity cache
first; on a miss, `GetByShortCode`, caching a hit. -/
def fetchEntity (w : World) (code : String) : Option URLRow × World :=
  match cacheGet w.entCache code with
  | some u => (some u, w)
  | none =>
    match getByShortCode w.db code w.now with
    | none => (none, w)
    | some u => (some u, { w with entCache := cacheSet w.entCache code u })

/-- service.GetURL: read-through fetch, then the service-side checks
`!url.IsActive` and expiry. `deleted_at` is not consulted anywhere on this
path. -/
def getURL (baseURL : String) (w : World) (code : String) :
    Option URLResponse × World :=
  match fetchEntity w code with
  | (none, w2) => (none, w2)
  | (some u, w2) =>
    if !u.isActive then (none, w2)
    else if isExpiredAt u.expiresAt w.now then (none, w2)
    else (some (buildURLResponse baseURL u), w2)

/-- service.DeleteURL: repository delete, then best-effort entity-cache
eviction (the response cache is never evicted). -/
def deleteURL (w : World) (code : String) : Except String Unit × World :=
  match PostgresRepository.delete w.db code with
  | Except.error e => (Except.error e, w)
  | Except.ok db2 =>
    (Except.ok (), { w with db := db2, entCache := cacheDel w.entCache code })

end URLService

/-! ## Concrete fixtures

Shared concrete inputs used to evaluate the model in closed theorems and
witnesses. -/

/-- A live row: short code "abc123" owned by user 1. -/
def demoRow : URLRow :=
  { id := 1, shortCode := "abc123", originalURL := "https://example.com/a"
    userID := 1, createdAt := 10, expiresAt := none, clickCount := 0
    isActive := true, metadata := none, updatedAt := 10, deletedAt := none }

/-- A validator that accepts everything (the default policy's `IsSafe`
always returns `(true, nil)`). -/
def okValidator : URLValidator :=
  { validate := fun _ => none, isSafe := fun _ => (true, none) }

/-- A generator stream that always draws the fresh code "zzzz999". -/
def constCodes : Nat → String := fun _ => "zzzz999"

/-- A create request for `demoRow`'s (URL, owner) pair, with no expiry. -/
def demoReq : CreateURLRequest :=
  { url := "https://example.com/a", userID := 1, expiresIn := none
    metadata := none }

/-- World holding the live `demoRow` (also present in the entity cache). -/
def wLive : World :=
  { db := [demoRow], entCache := [("abc123", demoRow)], respCache := []
    now := 20, nextId := 2 }

/-- World holding only an expired, not-tombstoned row for the same
(URL, owner) pair as `demoReq`. -/
def wExpired : World :=
  { db := [{ demoRow with shortCode := "old0001", expiresAt := some 15 }]
    entCache := [], respCache := [], now := 20, nextId := 2 }

/-- World holding `demoRow` already marked inactive (the state DeleteURL
leaves behind). -/
def wInactive : World :=
  { db := [{ demoRow with isActive := false }], entCache := [], respCache := []
    now := 20, nextId := 2 }

/-- A row soft-deleted via `deleted_at` but still `is_active` and unexpired. -/
def rowTombstoned : URLRow :=
  { demoRow with shortCode := "dd", deletedAt := some 5 }

/-- World holding `rowTombstoned` only. -/
def wTombstoned : World :=
  { db := [rowTombstoned], entCache := [], respCache := [], now := 20, nextId := 2 }

/-- An empty-store world. -/
def wEmpty : World :=
  { db := [], entCache := [], respCache := [], now := 20, nextId := 1 }

/-- A response sitting in the response cache. -/
def cachedResp : URLResponse :=
  { shortCode := "cached01", shortURL := "http://sho.rt/cached01"
    originalURL := "https://example.com/a", createdAt := 5, expiresAt := none
    clickCount := 3 }

/-- World whose response cache holds `cachedResp` under `demoReq`'s dedup
key. -/
def wCached : World :=
  { db := [], entCache := []
    respCache := [(generateResponseCacheKey "https://example.com/a" 1, cachedResp)]
    now := 20, nextId := 1 }

/-- A validator whose safety check reports an unsafe verdict together with
an error. -/
def unsafeValidator : URLValidator :=
  { validate := fun _ => none
    isSafe := fun _ => (false, some "reputation service unavailable") }

/-- A validator whose safety check reports a safe verdict together with an
error. -/
def safeButErrValidator : URLValidator :=
  { validate := fun _ => none
    isSafe := fun _ => (true, some "reputation service unavailable") }

/-! ## Helper lemmas -/

/-- A freshly written response-cache entry is found by the next probe under
the same key. -/
theorem cacheGet_cacheSet_self {α : Type} (c : List (String × α)) (k : String)
    (v : α) : cacheGet (cacheSet c k v) k = some v := by
  simp [cacheGet, cacheSet, List.find?]

/-- Unpacking a collision-classified attempt outcome. -/
theorem collision_elim (o : Except String URLResponse)
    (h : URLService.isCollisionFailure o = true) :
    ∃ e, o = Except.error e ∧ isDuplicateShortCodeError e = true := by
  cases o with
  | ok r => simp [URLService.isCollisionFailure] at h
  | error e => exact ⟨e, rfl, by simpa [URLService.isCollisionFailure] using h⟩

/-- A successful attempt ends the retry loop with that response. -/
theorem retryF_ok (baseURL : String) (att : Nat → Except String URLResponse)
    (fb : Except String (Option URLRow)) (fuel attempt : Nat) (r : URLResponse)
    (h : att attempt = Except.ok r) :
    URLService.createRetryLoopF baseURL att fb (fuel + 1) attempt = Except.ok r := by
  simp [URLService.createRetryLoopF, h]

/-- A collision failure on an attempt other than the 5th moves on to the
next attempt. -/
theorem retryF_skip (baseURL : String) (att : Nat → Except String URLResponse)
    (fb : Except String (Option URLRow)) (fuel attempt : Nat) (e : String)
    (h : att attempt = Except.error e)
    (hd : isDuplicateShortCodeError e = true)
    (h5 : (attempt == 5) = false) :
    URLService.createRetryLoopF baseURL att fb (fuel + 1) attempt
      = URLService.createRetryLoopF baseURL att fb fuel (attempt + 1) := by
  simp [URLService.createRetryLoopF, h, hd, h5]

/-- A collision failure on the 5th attempt diverts to the fallback dedup
read. -/
theorem retryF_fallback (baseURL : String) (att : Nat → Except String URLResponse)
    (fb : Except String (Option URLRow)) (fuel : Nat) (e : String)
    (h : att 5 = Except.error e)
    (hd : isDuplicateShortCodeError e = true) :
    URLService.createRetryLoopF baseURL att fb (fuel + 1) 5
      = URLService.handleDuplicateErrorFallbackF baseURL fb := by
  simp [URLService.createRetryLoopF, h, hd]

/-- A failure not classified as a short-code collision aborts the loop with
the wrapped error. -/
theorem retryF_abort (baseURL : String) (att : Nat → Except String URLResponse)
    (fb : Except String (Option URLRow)) (fuel attempt : Nat) (e : String)
    (h : att attempt = Except.error e)
    (hd : isDuplicateShortCodeError e = false) :
    URLService.createRetryLoopF baseURL att fb (fuel + 1) attempt
      = Except.error (URLService.attemptFailMsg attempt e) := by
  simp [URLService.createRetryLoopF, h, hd]

/-- If attempts `1..j-1` all fail with short-code collisions, the retry loop
reaches attempt `j` with the remaining fuel. -/
theorem retryF_reaches (baseURL : String) (att : Nat → Except String URLResponse)
    (fb : Except String (Option URLRow)) :
    ∀ j, 1 ≤ j → j ≤ 5 →
      (∀ k, 1 ≤ k → k < j → URLService.isCollisionFailure (att k) = true) →
      URLService.createNewURLWithRetryF baseURL att fb
        = URLService.createRetryLoopF baseURL att fb (6 - j) j := by
  intro j
  induction j with
  | zero => intro h; omega
  | succ n ih =>
    intro _ hj5 hcols
    by_cases hn : n = 0
    · subst hn
      rfl
    · have hn1 : 1 ≤ n := by omega
      have hprev := ih hn1 (by omega) (fun k hk1 hk2 => hcols k hk1 (by omega))
      obtain ⟨e, he, hd⟩ := collision_elim (att n) (hcols n hn1 (by omega))
      have h6 : 6 - n = (5 - n) + 1 := by omega
      have h5n : (n == 5) = false := by
        have : n ≠ 5 := by omega
        simpa using this
      rw [hprev, h6, retryF_skip baseURL att fb (5 - n) n e he hd h5n]
      have : 5 - n = 6 - (n + 1) := by omega
      rw [this]

/-! ## Claim theorems -/

/-- C3: in CreateURL's create step, a persist failure classified as a
short-code collision is retried with a freshly generated code for up to 5
attempts; after the 5th collision a fallback dedup read is performed,
returning the found entity's response or failing if none exists; any persist
failure not classified as a short-code collision aborts immediately with an
error, with no retry and no fallback read. -/
theorem c3_retry_policy (baseURL : String)
    (att : Nat → Except String URLResponse)
    (fb : Except String (Option URLRow)) :
    (∀ j r, 1 ≤ j → j ≤ 5 →
      (∀ k, 1 ≤ k → k < j → URLService.isCollisionFailure (att k) = true) →
      att j = Except.ok r →
      URLService.createNewURLWithRetryF baseURL att fb = Except.ok r) ∧
    ((∀ k, 1 ≤ k → k ≤ 5 → URLService.isCollisionFailure (att k) = true) →
      URLService.createNewURLWithRetryF baseURL att fb
        = URLService.handleDuplicateErrorFallbackF baseURL fb) ∧
    (∀ u, URLService.handleDuplicateErrorFallbackF baseURL (Except.ok (some u))
        = Except.ok (URLService.buildURLResponse baseURL u)) ∧
    (URLService.handleDuplicateErrorFallbackF baseURL (Except.ok none)
        = Except.error "failed to create URL after 5 retry attempts") ∧
    (∀ j e, 1 ≤ j → j ≤ 5 →
      (∀ k, 1 ≤ k → k < j → URLService.isCollisionFailure (att k) = true) →
      att j = Except.error e → isDuplicateShortCodeError e = false →
      URLService.createNewURLWithRetryF baseURL att fb
        = Except.error (URLService.attemptFailMsg j e)) := by
  refine ⟨?_, ?_, ?_, ?_, ?_⟩
  · intro j r hj1 hj5 hcols hok
    rw [retryF_reaches baseURL att fb j hj1 hj5 hcols,
      show 6 - j = (5 - j) + 1 by omega, retryF_ok baseURL att fb (5 - j) j r hok]
  · intro hcols
    obtain ⟨e, he, hd⟩ := collision_elim (att 5) (hcols 5 (by omega) (by omega))
    rw [retryF_reaches baseURL att fb 5 (by omega) (by omega)
        (fun k hk1 hk2 => hcols k hk1 (by omega)),
      show 6 - 5 = 0 + 1 by omega, retryF_fallback baseURL att fb 0 e he hd]
  · intro u
    simp [URLService.handleDuplicateErrorFallbackF]
  · simp [URLService.handleDuplicateErrorFallbackF]
  · intro j e hj1 hj5 hcols herr hd
    rw [retryF_reaches baseURL att fb j hj1 hj5 hcols,
      show 6 - j = (5 - j) + 1 by omega,
      retryF_abort baseURL att fb (5 - j) j e herr hd]

/-- Witness for C3 at concrete inputs: five consecutive short-code-collision
failures divert to the fallback dedup read. -/
theorem c3_retry_policy_witness :
    URLService.createNewURLWithRetryF "http://sho.rt"
      (fun _ => Except.error PostgresRepository.dupShortCodeMsg)
      (Except.ok (some demoRow))
    = URLService.handleDuplicateErrorFallbackF "http://sho.rt"
        (Except.ok (some demoRow)) :=
  (c3_retry_policy "http://sho.rt"
    (fun _ => Except.error PostgresRepository.dupShortCodeMsg)
    (Except.ok (some demoRow))).2.1 (fun _ _ _ => by decide)

/-- C4 counterexample: with a not-tombstoned but expired row for the same
(owner, URL) pair, the dedup lookup misses, the persist hits the partial
unique index `idx_urls_user_url_not_deleted`, and CreateURL propagates the
wrapped error to the caller — it does not fall back to re-reading the dedup
key. -/
theorem c4_counterexample :
    (URLService.createURL "http://sho.rt" okValidator constCodes wExpired 0
        demoReq).result
      = Except.error (URLService.attemptFailMsg 1 PostgresRepository.dupUserURLMsg) ∧
    (URLService.createURL "http://sho.rt" okValidator constCodes wExpired 0
        demoReq).world.db = wExpired.db ∧
    isDuplicateUserURLError PostgresRepository.dupUserURLMsg = true := by
  decide

/-- C4 amended: a persist failure carrying a uniqueness violation on the
dedup key is not classified as a short-code collision — the classifier
`isDuplicateUserURLError` would recognise it but is never consulted — so
CreateURL aborts immediately with the wrapped error, with no retry and no
fallback dedup read (the outcome is the same for every fallback value). -/
theorem c4_amended (baseURL : String)
    (att : Nat → Except String URLResponse)
    (fb : Except String (Option URLRow))
    (h1 : att 1 = Except.error PostgresRepository.dupUserURLMsg) :
    URLService.createNewURLWithRetryF baseURL att fb
      = Except.error (URLService.attemptFailMsg 1 PostgresRepository.dupUserURLMsg) ∧
    isDuplicateUserURLError PostgresRepository.dupUserURLMsg = true ∧
    isDuplicateShortCodeError PostgresRepository.dupUserURLMsg = false := by
  refine ⟨?_, by decide, by decide⟩
  exact retryF_abort baseURL att fb 4 1 PostgresRepository.dupUserURLMsg h1 (by decide)

/-- Witness for C4's amended theorem at concrete inputs. -/
theorem c4_amended_witness :
    URLService.createNewURLWithRetryF "http://sho.rt"
      (fun _ => Except.error PostgresRepository.dupUserURLMsg)
      (Except.ok (some demoRow))
    = Except.error (URLService.attemptFailMsg 1 PostgresRepository.dupUserURLMsg) :=
  (c4_amended "http://sho.rt"
    (fun _ => Except.error PostgresRepository.dupUserURLMsg)
    (Except.ok (some demoRow)) rfl).1

/-- C1 evaluated at the failing input (code bug): starting from a store
holding only the live `demoRow` ("abc123", user 1), `DeleteURL "abc123"`
succeeds and merely clears `is_active` — `deleted_at` stays NULL because the
service delete path never sets it. The dedup lookup, which filters only on
`deleted_at IS NULL`, therefore still returns the deleted entity, and a
subsequent CreateURL for the same (URL, owner) returns the deleted entity's
code "abc123" (not a freshly generated one) while persisting nothing — even
though GetURL reports that very code as not found. -/
theorem c1_failing_input_eval :
    (URLService.deleteURL wLive "abc123").1 = Except.ok () ∧
    (URLService.deleteURL wLive "abc123").2.db
      = [{ demoRow with isActive := false }] ∧
    PostgresRepository.getByOriginalURLAndUser
        (URLService.deleteURL wLive "abc123").2.db "https://example.com/a" 1 20
      = some { demoRow with isActive := false } ∧
    (URLService.createURL "http://sho.rt" okValidator constCodes
        (URLService.deleteURL wLive "abc123").2 0 demoReq).result
      = Except.ok (URLService.buildURLResponse "http://sho.rt"
          { demoRow with isActive := false }) ∧
    (URLService.buildURLResponse "http://sho.rt"
        { demoRow with isActive := false }).shortCode = "abc123" ∧
    (URLService.createURL "http://sho.rt" okValidator constCodes
        (URLService.deleteURL wLive "abc123").2 0 demoReq).world.db
      = [{ demoRow with isActive := false }] ∧
    (URLService.getURL "http://sho.rt"
        (URLService.deleteURL wLive "abc123").2 "abc123").1 = none := by
  decide

/-- C5 counterexample: a row whose `deleted_at` is set but whose `is_active`
is still true and which has no expiry is served by GetURL — the claim's
"deleted_at is set implies not-found" conjunct fails, because neither
GetByShortCode's query nor the service-side checks consult `deleted_at`. -/
theorem c5_counterexample :
    (URLService.getURL "http://sho.rt" wTombstoned "dd").1
      = some (URLService.buildURLResponse "http://sho.rt" rowTombstoned) ∧
    rowTombstoned.deletedAt = some 5 ∧
    rowTombstoned.isActive = true ∧
    rowTombstoned.expiresAt = none := by
  decide

/-- C5 amended: GetURL returns not-found exactly when the entity obtained
from the cache or the store is inactive or expired (`active` false, or
`expires_at` set and in the past); `deleted_at` is not consulted on this
path. In particular an entity whose `expires_at` is in the past is reported
not-found, and a fetch miss is reported not-found. -/
theorem c5_amended (baseURL : String) (w : World) (code : String) :
    ((URLService.fetchEntity w code).1 = none →
      (URLService.getURL baseURL w code).1 = none) ∧
    (∀ u, (URLService.fetchEntity w code).1 = some u →
      ((URLService.getURL baseURL w code).1 = none ↔
        (u.isActive = false ∨ isExpiredAt u.expiresAt w.now = true))) := by
  constructor
  · intro h
    rcases hfe : URLService.fetchEntity w code with ⟨o, w2⟩
    rw [hfe] at h
    simp only at h
    subst h
    simp [URLService.getURL, hfe]
  · intro u hu
    rcases hfe : URLService.fetchEntity w code with ⟨o, w2⟩
    rw [hfe] at hu
    simp only at hu
    subst hu
    simp only [URLService.getURL, hfe]
    by_cases ha : u.isActive
    · by_cases he : isExpiredAt u.expiresAt w.now
      · simp [ha, he]
      · simp [ha, he]
    · simp [ha]

/-- Witness for C5's amended theorem: the tombstoned-but-active row is
fetched, and GetURL reports it found because it is neither inactive nor
expired. -/
theorem c5_amended_witness :
    (URLService.getURL "http://sho.rt" wTombstoned "dd").1 = none ↔
      (rowTombstoned.isActive = false ∨
        isExpiredAt rowTombstoned.expiresAt wTombstoned.now = true) :=
  (c5_amended "http://sho.rt" wTombstoned "dd").2 rowTombstoned (by decide)

/-- C7 counterexample: deleting a short code whose only row is already
inactive succeeds (the UPDATE's WHERE clause has no liveness filter, and an
UPDATE that rewrites the same value still counts as an affected row), where
the claim requires a not-found failure. -/
theorem c7_counterexample :
    (URLService.deleteURL wInactive "abc123").1 = Except.ok () ∧
    (URLService.deleteURL wInactive "abc123").2.db = wInactive.db := by
  decide

/-- C7 amended: DeleteURL fails with "URL not found" exactly when no row
with that short code exists in the store, regardless of liveness; when any
row with the code exists — live or not — it sets `is_active` to false on
those rows and succeeds, also for rows that were already inactive. On
failure nothing changes; on success the entity-cache entry is evicted and
the response cache is untouched. -/
theorem c7_amended (w : World) (code : String) :
    ((URLService.deleteURL w code).1 = Except.ok () ↔
      ∃ r, r ∈ w.db ∧ r.shortCode = code) ∧
    ((∃ r, r ∈ w.db ∧ r.shortCode = code) →
      (URLService.deleteURL w code).2.db
        = w.db.map (fun r =>
            if r.shortCode == code then { r with isActive := false } else r) ∧
      (URLService.deleteURL w code).2.entCache = cacheDel w.entCache code ∧
      (URLService.deleteURL w code).2.respCache = w.respCache) ∧
    ((¬ ∃ r, r ∈ w.db ∧ r.shortCode = code) →
      (URLService.deleteURL w code).1 = Except.error "URL not found" ∧
      (URLService.deleteURL w code).2 = w) := by
  have hany : (w.db.any (fun r => r.shortCode == code) = true) ↔
      ∃ r, r ∈ w.db ∧ r.shortCode = code := by
    simp [List.any_eq_true]
  by_cases h : w.db.any (fun r => r.shortCode == code) = true
  · have hdel : URLService.deleteURL w code
        = (Except.ok (),
            { w with
              db := w.db.map (fun r =>
                if r.shortCode == code then { r with isActive := false } else r)
              entCache := cacheDel w.entCache code }) := by
      simp [URLService.deleteURL, PostgresRepository.delete, h]
    refine ⟨?_, ?_, ?_⟩
    · rw [hdel]
      exact iff_of_true rfl (hany.mp h)
    · intro _
      rw [hdel]
      exact ⟨rfl, rfl, rfl⟩
    · intro hno
      exact absurd (hany.mp h) hno
  · have hdel : URLService.deleteURL w code = (Except.error "URL not found", w) := by
      simp [URLService.deleteURL, PostgresRepository.delete, h]
    refine ⟨?_, ?_, ?_⟩
    · rw [hdel]
      constructor
      · intro hc
        exact Except.noConfusion hc
      · intro hex
        exact absurd (hany.mpr hex) h
    · intro hex
      exact absurd (hany.mpr hex) h
    · intro _
      rw [hdel]
      exact ⟨rfl, rfl⟩

/-- Witness for C7's amended theorem: a store without the code reports "URL
not found" and is left unchanged. -/
theorem c7_amended_witness :
    (URLService.deleteURL wEmpty "abc123").1 = Except.error "URL not found" ∧
    (URLService.deleteURL wEmpty "abc123").2 = wEmpty :=
  (c7_amended wEmpty "abc123").2.2 (by decide)

/-- C6: when the response cache holds a response under the dedup key derived
from (URL, owner), CreateURL returns that cached response immediately: the
state is unchanged, no generator draw happens, and the only pipeline step is
the response-cache probe (no validation, no safety check, no dedup lookup,
no persist). Two requests with the same (URL, owner) derive the same dedup
key. -/
theorem c6_response_cache_fastpath (baseURL : String) (v : URLValidator)
    (codes : Nat → String) (w : World) (g : Nat) (req : CreateURLRequest)
    (resp : URLResponse)
    (hhit : cacheGet w.respCache (generateResponseCacheKey req.url req.userID)
      = some resp) :
    URLService.createURL baseURL v codes w g req
      = { result := Except.ok resp, world := w, genIdx := g
          steps := [Step.respCacheProbe] } ∧
    (∀ r1 r2 : CreateURLRequest, r1.url = r2.url → r1.userID = r2.userID →
      generateResponseCacheKey r1.url r1.userID
        = generateResponseCacheKey r2.url r2.userID) := by
  constructor
  · simp [URLService.createURL, hhit]
  · intro r1 r2 hu ho
    rw [hu, ho]

/-- Witness for C6 at concrete inputs. -/
theorem c6_response_cache_fastpath_witness :
    URLService.createURL "http://sho.rt" okValidator constCodes wCached 0 demoReq
      = { result := Except.ok cachedResp, world := wCached, genIdx := 0
          steps := [Step.respCacheProbe] } :=
  (c6_response_cache_fastpath "http://sho.rt" okValidator constCodes wCached 0
    demoReq cachedResp (by decide)).1

/-- C10: once the response-cache probe misses and validation passes, an
error returned by the safety check never by itself aborts CreateURL — the
call is rejected with the unsafe-URL error exactly when the boolean verdict
is false, and with a true verdict the outcome is identical whatever the
accompanying error is (CreateURL only consults the verdict). -/
theorem c10_issafe_error_ignored (baseURL : String) (v : URLValidator)
    (codes : Nat → String) (w : World) (g : Nat) (req : CreateURLRequest) :
    ((cacheGet w.respCache (generateResponseCacheKey req.url req.userID) = none) →
      v.validate req.url = none →
      (v.isSafe req.url).1 = false →
      URLService.createURL baseURL v codes w g req
        = { result := Except.error "URL is not safe", world := w, genIdx := g
            steps := [Step.respCacheProbe, Step.validateURL, Step.safetyCheck] }) ∧
    (∀ v2 : URLValidator, v2.validate = v.validate →
      (v2.isSafe req.url).1 = (v.isSafe req.url).1 →
      URLService.createURL baseURL v2 codes w g req
        = URLService.createURL baseURL v codes w g req) := by
  constructor
  · intro hmiss hval hunsafe
    simp [URLService.createURL, hmiss, hval, hunsafe]
  · intro v2 hval2 hsafe2
    simp only [URLService.createURL, hval2, hsafe2]

/-- Witness for C10 at concrete inputs: an unsafe verdict accompanied by an
error aborts with exactly the unsafe-URL error, and a safe verdict
accompanied by an error behaves as if the safety check had reported no
error. -/
theorem c10_issafe_error_ignored_witness :
    (URLService.createURL "http://sho.rt" unsafeValidator constCodes wEmpty 0
        demoReq
      = { result := Except.error "URL is not safe", world := wEmpty, genIdx := 0
          steps := [Step.respCacheProbe, Step.validateURL, Step.safetyCheck] }) ∧
    (URLService.createURL "http://sho.rt" safeButErrValidator constCodes wEmpty 0
        demoReq
      = URLService.createURL "http://sho.rt" okValidator constCodes wEmpty 0
          demoReq) :=
  ⟨(c10_issafe_error_ignored "http://sho.rt" unsafeValidator constCodes wEmpty 0
      demoReq).1 rfl rfl rfl,
    (c10_issafe_error_ignored "http://sho.rt" okValidator constCodes wEmpty 0
      demoReq).2 safeButErrValidator rfl rfl⟩

/-- C2: with an empty response cache (probe miss), a valid and safe request
whose (owner, URL) pair has exactly one dedup-visible entity in the store —
and that entity live — makes CreateURL return that entity's response without
persisting anything; a second call in immediate succession (on the resulting
state) returns the identical response via the response cache, the store is
unchanged by both calls, and exactly one live entity for the pair remains. -/
theorem c2_idempotent_creation (baseURL : String) (v : URLValidator)
    (codes : Nat → String) (w : World) (g : Nat) (req : CreateURLRequest)
    (e : URLRow)
    (hmiss : cacheGet w.respCache (generateResponseCacheKey req.url req.userID)
      = none)
    (hval : v.validate req.url = none)
    (hsafe : (v.isSafe req.url).1 = true)
    (hded : w.db.filter (PostgresRepository.matchesDedup req.url req.userID)
      = [e])
    (hact : e.isActive = true)
    (hexp : isExpiredAt e.expiresAt w.now = false) :
    (URLService.createURL baseURL v codes w g req).result
      = Except.ok (URLService.buildURLResponse baseURL e) ∧
    (URLService.createURL baseURL v codes w g req).world.db = w.db ∧
    (URLService.createURL baseURL v codes w g req).genIdx = g ∧
    (URLService.createURL baseURL v codes
        (URLService.createURL baseURL v codes w g req).world
        (URLService.createURL baseURL v codes w g req).genIdx req).result
      = Except.ok (URLService.buildURLResponse baseURL e) ∧
    (URLService.createURL baseURL v codes
        (URLService.createURL baseURL v codes w g req).world
        (URLService.createURL baseURL v codes w g req).genIdx req).world.db
      = w.db ∧
    (URLService.createURL baseURL v codes w g req).world.db.filter
        (PostgresRepository.matchesDedup req.url req.userID) = [e] ∧
    isLive e w.now = true := by
  have hmem : e ∈ w.db.filter (PostgresRepository.matchesDedup req.url req.userID) := by
    rw [hded]
    exact List.mem_singleton.mpr rfl
  have hm : PostgresRepository.matchesDedup req.url req.userID e = true :=
    List.of_mem_filter hmem
  have hdel : e.deletedAt = none := by
    simp only [PostgresRepository.matchesDedup, Bool.and_eq_true, beq_iff_eq] at hm
    exact hm.2
  have hdedup : PostgresRepository.getByOriginalURLAndUser w.db req.url
      req.userID w.now = some e := by
    simp [PostgresRepository.getByOriginalURLAndUser,
      PostgresRepository.latestCreated, hded, hexp]
  have h1 : URLService.createURL baseURL v codes w g req
      = { result := Except.ok (URLService.buildURLResponse baseURL e)
          world := { w with
            respCache := cacheSet w.respCache
              (generateResponseCacheKey req.url req.userID)
              (URLService.buildURLResponse baseURL e) }
          genIdx := g
          steps := [Step.respCacheProbe, Step.validateURL, Step.safetyCheck,
                    Step.dedupLookup, Step.respCacheWrite] } := by
    simp [URLService.createURL, hmiss, hval, hsafe, hdedup]
  have h2 : URLService.createURL baseURL v codes
      (URLService.createURL baseURL v codes w g req).world
      (URLService.createURL baseURL v codes w g req).genIdx req
      = { result := Except.ok (URLService.buildURLResponse baseURL e)
          world := (URLService.createURL baseURL v codes w g req).world
          genIdx := g
          steps := [Step.respCacheProbe] } := by
    rw [h1]
    simp [URLService.createURL, cacheGet_cacheSet_self]
  refine ⟨?_, ?_, ?_, ?_, ?_, ?_, ?_⟩
  · rw [h1]
  · rw [h1]
  · rw [h1]
  · rw [h2]
  · rw [h2, h1]
  · rw [h1]
    exact hded
  · simp [isLive, hact, hdel, hexp]

/-- Witness for C2 at concrete inputs: resubmitting `demoRow`'s (URL, owner)
pair returns `demoRow`'s response on both of two successive calls. -/
theorem c2_idempotent_creation_witness :
    (URLService.createURL "http://sho.rt" okValidator constCodes wLive 0
        demoReq).result
      = Except.ok (URLService.buildURLResponse "http://sho.rt" demoRow) ∧
    (URLService.createURL "http://sho.rt" okValidator constCodes
        (URLService.createURL "http://sho.rt" okValidator constCodes wLive 0
          demoReq).world
        (URLService.createURL "http://sho.rt" okValidator constCodes wLive 0
          demoReq).genIdx demoReq).result
      = Except.ok (URLService.buildURLResponse "http://sho.rt" demoRow) :=
  ⟨(c2_idempotent_creation "http://sho.rt" okValidator constCodes wLive 0
      demoReq demoRow (by decide) rfl rfl (by decide) (by decide) (by decide)).1,
    (c2_idempotent_creation "http://sho.rt" okValidator constCodes wLive 0
      demoReq demoRow (by decide) rfl rfl (by decide) (by decide) (by decide)).2.2.2.1⟩

/-- C8: on a successful first-attempt create (cache miss, valid, safe, dedup
miss, generator draw fresh, no constraint violation), the persisted entity's
`expires_at` is absent whenever the request's expiry duration is absent,
zero, or negative, and equals creation time plus the duration when the
duration is strictly positive; the response's `expiresAt` always equals the
persisted entity's. -/
theorem c8_expiry_handling (baseURL : String) (v : URLValidator)
    (codes : Nat → String) (w : World) (g : Nat) (req : CreateURLRequest)
    (hmiss : cacheGet w.respCache (generateResponseCacheKey req.url req.userID)
      = none)
    (hval : v.validate req.url = none)
    (hsafe : (v.isSafe req.url).1 = true)
    (hdedup : PostgresRepository.getByOriginalURLAndUser w.db req.url
      req.userID w.now = none)
    (hprobe : PostgresRepository.getByShortCode w.db (codes g) w.now = none)
    (hsc : PostgresRepository.createViolatesShortCode w.db (codes g) = false)
    (huu : PostgresRepository.createViolatesUserURL w.db req.url req.userID
      = false) :
    (URLService.createURL baseURL v codes w g req).result
      = Except.ok (URLService.buildURLResponse baseURL
          { URLService.mkEntity req (codes g) w.now with
            id := w.nextId, createdAt := w.now, clickCount := 0
            updatedAt := w.now, deletedAt := none }) ∧
    (URLService.createURL baseURL v codes w g req).world.db
      = w.db ++ [{ URLService.mkEntity req (codes g) w.now with
          id := w.nextId, createdAt := w.now, clickCount := 0
          updatedAt := w.now, deletedAt := none }] ∧
    (req.expiresIn = none →
      (URLService.mkEntity req (codes g) w.now).expiresAt = none) ∧
    (∀ d, req.expiresIn = some d → d ≤ 0 →
      (URLService.mkEntity req (codes g) w.now).expiresAt = none) ∧
    (∀ d, req.expiresIn = some d → 0 < d →
      (URLService.mkEntity req (codes g) w.now).expiresAt
        = some (w.now + d.toNat)) ∧
    (URLService.buildURLResponse baseURL
        { URLService.mkEntity req (codes g) w.now with
          id := w.nextId, createdAt := w.now, clickCount := 0
          updatedAt := w.now, deletedAt := none }).expiresAt
      = (URLService.mkEntity req (codes g) w.now).expiresAt := by
  have hgen : URLService.generateUniqueShortCode w.db w.now codes g 10
      = (Except.ok (codes g), g + 1) := by
    rw [show (10 : Nat) = 9 + 1 from rfl]
    simp [URLService.generateUniqueShortCode, hprobe]
  have hatt : URLService.attemptCreateURL baseURL codes w g req
      = (Except.ok
          (URLService.buildURLResponse baseURL
            { URLService.mkEntity req (codes g) w.now with
              id := w.nextId, createdAt := w.now, clickCount := 0
              updatedAt := w.now, deletedAt := none },
           { w with
             db := w.db ++ [{ URLService.mkEntity req (codes g) w.now with
               id := w.nextId, createdAt := w.now, clickCount := 0
               updatedAt := w.now, deletedAt := none }]
             nextId := w.nextId + 1
             entCache := cacheSet w.entCache (codes g)
               { URLService.mkEntity req (codes g) w.now with
                 id := w.nextId, createdAt := w.now, clickCount := 0
                 updatedAt := w.now, deletedAt := none } }),
         g + 1, [Step.persist]) := by
    simp only [URLService.attemptCreateURL, hgen]
    simp [PostgresRepository.create, URLService.mkEntity, hsc, huu]
  have hloop : URLService.createRetryLoop baseURL codes req 5 w g 1
      = (Except.ok
          (URLService.buildURLResponse baseURL
            { URLService.mkEntity req (codes g) w.now with
              id := w.nextId, createdAt := w.now, clickCount := 0
              updatedAt := w.now, deletedAt := none },
           { w with
             db := w.db ++ [{ URLService.mkEntity req (codes g) w.now with
               id := w.nextId, createdAt := w.now, clickCount := 0
               updatedAt := w.now, deletedAt := none }]
             nextId := w.nextId + 1
             entCache := cacheSet w.entCache (codes g)
               { URLService.mkEntity req (codes g) w.now with
                 id := w.nextId, createdAt := w.now, clickCount := 0
                 updatedAt := w.now, deletedAt := none } }),
         g + 1, [Step.persist]) := by
    rw [show (5 : Nat) = 4 + 1 from rfl]
    simp [URLService.createRetryLoop, hatt]
  refine ⟨?_, ?_, ?_, ?_, ?_, rfl⟩
  · simp [URLService.createURL, hmiss, hval, hsafe, hdedup, hloop]
  · simp [URLService.createURL, hmiss, hval, hsafe, hdedup, hloop]
  · intro h
    simp [URLService.mkEntity, h]
  · intro d h hd
    have : ¬(0 < d) := by omega
    simp [URLService.mkEntity, h, this]
  · intro d h hd
    simp [URLService.mkEntity, h, hd]

/-- Witness for C8 at concrete inputs (the spec's Scenario B): creating with
`expiresInSeconds = 0` persists an entity whose `expires_at` is absent. -/
theorem c8_expiry_handling_witness :
    ((URLService.createURL "http://sho.rt" okValidator constCodes wEmpty 0
        { demoReq with expiresIn := some 0 }).result
      = Except.ok (URLService.buildURLResponse "http://sho.rt"
          { URLService.mkEntity { demoReq with expiresIn := some 0 }
              (constCodes 0) wEmpty.now with
            id := wEmpty.nextId, createdAt := wEmpty.now, clickCount := 0
            updatedAt := wEmpty.now, deletedAt := none })) ∧
    (URLService.mkEntity { demoReq with expiresIn := some 0 } (constCodes 0)
        wEmpty.now).expiresAt = none :=
  ⟨(c8_expiry_handling "http://sho.rt" okValidator constCodes wEmpty 0
      { demoReq with expiresIn := some 0 } (by decide) rfl rfl (by decide)
      (by decide) (by decide) (by decide)).1,
    (c8_expiry_handling "http://sho.rt" okValidator constCodes wEmpty 0
      { demoReq with expiresIn := some 0 } (by decide) rfl rfl (by decide)
      (by decide) (by decide) (by decide)).2.2.2.1 0 rfl (by omega)⟩

/-- Rows mapped by a click-count-preserving function keep their click count
at every index. -/
theorem clickCount_preserved_map (f : URLRow → URLRow)
    (hf : ∀ r, (f r).clickCount = r.clickCount) (db : List URLRow) (i : Nat)
    (r : URLRow) (hi : db[i]? = some r) :
    ∃ s, (db.map f)[i]? = some s ∧ s.clickCount = r.clickCount := by
  refine ⟨f r, ?_, hf r⟩
  rw [List.getElem?_map, hi]
  rfl

/-- C9: `click_count` never decreases under any repository operation —
Create appends a new row initialised to 0 and leaves existing rows
untouched, IncrementClickCount adds exactly 1 to the targeted active rows
and leaves every other row unchanged, and Update, Delete and SoftDelete
preserve every row's `click_count`. -/
theorem c9_clickcount_invariant :
    (∀ (db : List URLRow) (url : URLRow) (now : Nat) (id : Int)
        (db2 : List URLRow) (r : URLRow),
      PostgresRepository.create db url now id = Except.ok (db2, r) →
      db2 = db ++ [r] ∧ r.clickCount = 0) ∧
    (∀ (db : List URLRow) (code : String) (db2 : List URLRow),
      PostgresRepository.incrementClickCount db code = Except.ok db2 →
      ∀ (i : Nat) (r : URLRow), db[i]? = some r →
        db2[i]? = some (if r.shortCode == code && r.isActive then
          { r with clickCount := r.clickCount + 1 } else r)) ∧
    (∀ (db : List URLRow) (url : URLRow) (now : Nat) (db2 : List URLRow),
      PostgresRepository.update db url now = Except.ok db2 →
      ∀ (i : Nat) (r : URLRow), db[i]? = some r →
        ∃ s, db2[i]? = some s ∧ s.clickCount = r.clickCount) ∧
    (∀ (db : List URLRow) (code : String) (db2 : List URLRow),
      PostgresRepository.delete db code = Except.ok db2 →
      ∀ (i : Nat) (r : URLRow), db[i]? = some r →
        ∃ s, db2[i]? = some s ∧ s.clickCount = r.clickCount) ∧
    (∀ (db : List URLRow) (code : String) (now i : Nat) (r : URLRow),
      db[i]? = some r →
      ∃ s, (PostgresRepository.softDelete db code now)[i]? = some s ∧
        s.clickCount = r.clickCount) := by
  refine ⟨?_, ?_, ?_, ?_, ?_⟩
  · intro db url now id db2 r h
    unfold PostgresRepository.create at h
    by_cases h1 : PostgresRepository.createViolatesShortCode db url.shortCode
    · rw [if_pos h1] at h
      exact Except.noConfusion h
    · rw [if_neg h1] at h
      by_cases h2 : PostgresRepository.createViolatesUserURL db url.originalURL
          url.userID
      · rw [if_pos h2] at h
        exact Except.noConfusion h
      · rw [if_neg h2] at h
        simp only [Except.ok.injEq, Prod.mk.injEq] at h
        obtain ⟨hdb, hr⟩ := h
        subst hdb
        subst hr
        exact ⟨rfl, rfl⟩
  · intro db code db2 h i r hi
    unfold PostgresRepository.incrementClickCount at h
    by_cases h1 : db.any (fun r => r.shortCode == code && r.isActive) = true
    · rw [if_pos h1] at h
      simp only [Except.ok.injEq] at h
      subst h
      rw [List.getElem?_map, hi]
      rfl
    · rw [if_neg h1] at h
      exact Except.noConfusion h
  · intro db url now db2 h i r hi
    unfold PostgresRepository.update at h
    by_cases h1 : db.any (fun r => r.shortCode == url.shortCode && r.isActive)
        = true
    · rw [if_pos h1] at h
      simp only [Except.ok.injEq] at h
      subst h
      refine clickCount_preserved_map _ (fun s => ?_) db i r hi
      by_cases hc : (s.shortCode == url.shortCode && s.isActive) = true
      · simp [hc]
      · simp [hc]
    · rw [if_neg h1] at h
      exact Except.noConfusion h
  · intro db code db2 h i r hi
    unfold PostgresRepository.delete at h
    by_cases h1 : db.any (fun r => r.shortCode == code) = true
    · rw [if_pos h1] at h
      simp only [Except.ok.injEq] at h
      subst h
      refine clickCount_preserved_map _ (fun s => ?_) db i r hi
      by_cases hc : (s.shortCode == code) = true
      · simp [hc]
      · simp [hc]
    · rw [if_neg h1] at h
      exact Except.noConfusion h
  · intro db code now i r hi
    unfold PostgresRepository.softDelete
    refine clickCount_preserved_map _ (fun s => ?_) db i r hi
    by_cases hc : (s.shortCode == code && s.deletedAt == none) = true
    · simp [hc]
    · simp [hc]

/-- Witness for C9 at concrete inputs: incrementing the click count of the
live `demoRow` yields exactly `clickCount + 1` on that row. -/
theorem c9_clickcount_invariant_witness :
    [{ demoRow with clickCount := demoRow.clickCount + 1 }][0]?
      = some (if demoRow.shortCode == "abc123" && demoRow.isActive then
          { demoRow with clickCount := demoRow.clickCount + 1 } else demoRow) :=
  c9_clickcount_invariant.2.1 [demoRow] "abc123"
    [{ demoRow with clickCount := demoRow.clickCount + 1 }] (by decide)
    0 demoRow (by decide)

end UrlShortener
